/-
Verification of the session-orchestration core of a LAN CCTV server.

This file gives a shallow embedding of the server state and operations:
the signalling registries (clients, streamers, masters) and message
handlers of the websocket module, the media-engine facade registries
(transports, producers, consumers) of the mediasoup module, and the
recording controller (recordings map, RTP port allocator, encoder
spawning) of the recorder module.  Runtime maps are modelled as
insertion-ordered association lists, matching the iteration order of
the runtime Map type; the runtime Set of masters is a duplicate-free
insertion-ordered list.  External side effects (process spawns,
resource closes, file writes) are recorded in explicit effect logs so
that theorems can speak about them.
-/
import Mathlib

namespace LanCCTV

/-- Lookup in an insertion-ordered association list (Map.get). -/
def alGet {α : Type} : List (Nat × α) → Nat → Option α
  | [], _ => none
  | (k, v) :: rest, key => if k = key then some v else alGet rest key

/-- Map.set: update in place when the key is present, append otherwise. -/
def alSet {α : Type} : List (Nat × α) → Nat → α → List (Nat × α)
  | [], key, v => [(key, v)]
  | (k, w) :: rest, key, v =>
      if k = key then (key, v) :: rest else (k, w) :: alSet rest key v

/-- Map.delete: remove the entry with the given key. -/
def alDel {α : Type} : List (Nat × α) → Nat → List (Nat × α)
  | [], _ => []
  | (k, v) :: rest, key =>
      if k = key then alDel rest key else (k, v) :: alDel rest key

/-! Media-engine facade (mediasoup module): registries of transports,
producers and consumers, each entry tagged with its owning client. -/

/-- Codec data the engine negotiates for a producer (codec name already
upper-cased, as the recorder derives it from the mime type). -/
structure CodecInfo where
  codecName : String
  payloadType : Nat
  clockRate : Nat
  ssrc : Nat
  deriving DecidableEq

structure TransportData where
  clientId : Nat
  deriving DecidableEq

structure ProducerData where
  clientId : Nat
  deviceName : Option String
  kind : String
  codec : CodecInfo
  deriving DecidableEq

structure ConsumerData where
  clientId : Nat
  producerId : Nat
  kind : String
  deriving DecidableEq

/-- Resource-release and creation side effects of the media facade. -/
inductive MEffect where
  | closedProducer (id : Nat)
  | closedConsumer (id : Nat)
  | closedTransport (id : Nat)
  | createdConsumer (id : Nat)
  deriving DecidableEq

structure MState where
  transports : List (Nat × TransportData)
  producers : List (Nat × ProducerData)
  consumers : List (Nat × ConsumerData)
  nextId : Nat
  effects : List MEffect
  deriving DecidableEq

/-- Entries of a registry owned by the given client (the filter used by
getProducersByClient and by the close loops of cleanupClient). -/
def ownedBy {α : Type} (owner : α → Nat) (clientId : Nat) :
    List (Nat × α) → List (Nat × α)
  | [] => []
  | e :: rest =>
      if owner e.2 = clientId then e :: ownedBy owner clientId rest
      else ownedBy owner clientId rest

/-- Entries of a registry left after deleting those owned by the client. -/
def withoutOwner {α : Type} (owner : α → Nat) (clientId : Nat) :
    List (Nat × α) → List (Nat × α)
  | [] => []
  | e :: rest =>
      if owner e.2 = clientId then withoutOwner owner clientId rest
      else e :: withoutOwner owner clientId rest

/-- An entry in the producer list reported to clients: id and kind. -/
structure ProducerInfo where
  id : Nat
  kind : String
  deriving DecidableEq

def getProducersByClient (ms : MState) (clientId : Nat) : List ProducerInfo :=
  (ownedBy ProducerData.clientId clientId ms.producers).map
    (fun e => ProducerInfo.mk e.1 e.2.kind)

/-- cleanupClient: close and delete every producer, then every consumer,
then every transport owned by the client. -/
def cleanupClient (ms : MState) (clientId : Nat) : MState :=
  { ms with
    producers := withoutOwner ProducerData.clientId clientId ms.producers,
    consumers := withoutOwner ConsumerData.clientId clientId ms.consumers,
    transports := withoutOwner TransportData.clientId clientId ms.transports,
    effects := ms.effects
      ++ (ownedBy ProducerData.clientId clientId ms.producers).map
          (fun e => MEffect.closedProducer e.1)
      ++ (ownedBy ConsumerData.clientId clientId ms.consumers).map
          (fun e => MEffect.closedConsumer e.1)
      ++ (ownedBy TransportData.clientId clientId ms.transports).map
          (fun e => MEffect.closedTransport e.1) }

structure ConsumeResult where
  id : Nat
  producerId : Nat
  kind : String
  deriving DecidableEq

def transportNotFoundMsg (tid : Nat) : String :=
  "Transport " ++ toString tid ++ " not found"

def producerNotFoundMsg (pid : Nat) : String :=
  "Producer " ++ toString pid ++ " not found"

def cannotConsumeMsg (pid : Nat) : String :=
  "Cannot consume producer " ++ toString pid

/-- createConsumer: look up the transport, then the producer, then check
the router capability predicate, and only then create the consumer
(paused) in the registry.  Capabilities are an opaque token handed to
the engine predicate canConsume.  A thrown engine error is an
Except.error. -/
def createConsumer (ms : MState) (canConsume : Nat → Nat → Bool)
    (transportId producerId rtpCapabilities clientId : Nat) :
    Except String (ConsumeResult × MState) :=
  match alGet ms.transports transportId with
  | none => Except.error (transportNotFoundMsg transportId)
  | some _ =>
    match alGet ms.producers producerId with
    | none => Except.error (producerNotFoundMsg producerId)
    | some pd =>
      if !canConsume producerId rtpCapabilities then
        Except.error (cannotConsumeMsg producerId)
      else
        let cid := ms.nextId
        Except.ok (ConsumeResult.mk cid producerId pd.kind,
          { ms with
            consumers := ms.consumers ++ [(cid, ConsumerData.mk clientId producerId pd.kind)],
            nextId := ms.nextId + 1,
            effects := ms.effects ++ [MEffect.createdConsumer cid] })

/-! Recording controller (recorder module). -/

/-- External side effects of the recorder: directory creation, capture
transport and consumer lifecycle, SDP file writes, encoder process
spawns, and the deferred flush/kill/close/unlink sequence scheduled by
stopRecording. -/
inductive RecEffect where
  | ensureDir
  | createdPlainTransport (id : Nat)
  | createdRecConsumer (id : Nat) (producerId : Nat)
  | connectedPlainTransport (id : Nat) (rtpPort rtcpPort : Nat)
  | wroteSdp (path : String) (content : String)
  | spawnedFfmpeg (handle : Nat) (outPath : String)
  | resumedRecConsumer (id : Nat)
  | closedRecConsumer (id : Nat)
  | scheduledStopSequence (producerId : Nat)
  deriving DecidableEq

/-- The per-producer record stored in the recordings map. -/
structure Recording where
  plainTransportId : Nat
  consumerId : Nat
  ffmpegHandle : Nat
  filepath : String
  sdpPath : String
  deviceName : Option String
  rtpPort : Nat
  startTime : Nat
  deriving DecidableEq

structure RecState where
  recordings : List (Nat × Recording)
  nextRtpPort : Nat
  ffmpegAvailable : Bool
  nextHandle : Nat
  effects : List RecEffect
  deriving DecidableEq

/-- Initial value of the module-level port counter. -/
def initialRtpPort : Nat := 20000

/-- getNextPort: return the current counter as the allocated port,
advance by two, wrapping to 20000 once the counter exceeds 30000.
Returns (allocated port, new counter). -/
def getNextPort (nextRtpPort : Nat) : Nat × Nat :=
  let port := nextRtpPort
  let counter := nextRtpPort + 2
  (port, if counter > 30000 then 20000 else counter)

def recordingsDir : String := "./server/recordings"

def unknownDevice : String := "unknown"

/-- Characters outside a-z, A-Z, 0-9, dash and underscore become an
underscore in the recording file name. -/
def safeChar (c : Char) : Char :=
  if c.isAlpha || c.isDigit || c = '-' || c = '_' then c else '_'

def safeDeviceName (s : String) : String := s.map safeChar

/-- Colons and dots of the ISO timestamp become dashes. -/
def isoChar (c : Char) : Char := if c = ':' || c = '.' then '-' else c

def isoSanitize (s : String) : String := s.map isoChar

/-- The capture-description (SDP) file contents, built from the consumer
parameters negotiated by the engine. -/
def mkSdp (rtpPort : Nat) (codec : CodecInfo) : String :=
  "v=0\n" ++
  "o=- 0 0 IN IP4 127.0.0.1\n" ++
  "s=MediaSoup Recording\n" ++
  "c=IN IP4 127.0.0.1\n" ++
  "t=0 0\n" ++
  "m=video " ++ toString rtpPort ++ " RTP/AVP " ++ toString codec.payloadType ++ "\n" ++
  "a=rtpmap:" ++ toString codec.payloadType ++ " " ++ codec.codecName ++
    "/" ++ toString codec.clockRate ++ "\n" ++
  "a=ssrc:" ++ toString codec.ssrc ++ " cname:mediasoup\n" ++
  "a=recvonly\n"

structure RecResult where
  filepath : String
  filename : String
  deriving DecidableEq

/-- startRecording(producerId, deviceName): no-op when the encoder is
unavailable; otherwise ensure the output directory, look up the
producer (no-op when absent), allocate a port pair, create and connect
a capture transport with a paused consumer, write the SDP file, spawn
the encoder, resume the consumer, and store the session in the
recordings map.  Fresh engine handles come from the nextHandle supply;
nowMs and nowIso are the two views of the current wall-clock time. -/
def startRecording (ms : MState) (st : RecState) (producerId : Nat)
    (deviceName : Option String) (nowMs : Nat) (nowIso : String) :
    Option RecResult × RecState :=
  if !st.ffmpegAvailable then (none, st)
  else
    let st1 := { st with effects := st.effects ++ [RecEffect.ensureDir] }
    match alGet ms.producers producerId with
    | none => (none, st1)
    | some pd =>
      let ports := getNextPort st1.nextRtpPort
      let rtpPort := ports.1
      let st2 := { st1 with nextRtpPort := ports.2 }
      let rtcpPort := rtpPort + 1
      let timestamp := isoSanitize nowIso
      let safeName := safeDeviceName (deviceName.getD unknownDevice)
      let filename := safeName ++ "_" ++ timestamp ++ ".mkv"
      let filepath := recordingsDir ++ "/" ++ filename
      let plainTransportId := st2.nextHandle
      let consumerId := st2.nextHandle + 1
      let ffmpegHandle := st2.nextHandle + 2
      let sdpContent := mkSdp rtpPort pd.codec
      let sdpPath := recordingsDir ++ "/" ++ toString producerId ++ ".sdp"
      let st3 := { st2 with
        nextHandle := st2.nextHandle + 3,
        effects := st2.effects ++
          [RecEffect.createdPlainTransport plainTransportId,
           RecEffect.createdRecConsumer consumerId producerId,
           RecEffect.connectedPlainTransport plainTransportId rtpPort rtcpPort,
           RecEffect.wroteSdp sdpPath sdpContent,
           RecEffect.spawnedFfmpeg ffmpegHandle filepath,
           RecEffect.resumedRecConsumer consumerId],
        recordings := alSet st2.recordings producerId
          (Recording.mk plainTransportId consumerId ffmpegHandle filepath
            sdpPath deviceName rtpPort nowMs) }
      (some (RecResult.mk filepath filename), st3)

structure StopResult where
  filepath : String
  duration : Nat
  deviceName : Option String
  deriving DecidableEq

/-- stopRecording(producerId): null and no change when the producer has
no entry; otherwise close the capture consumer, schedule the deferred
flush/stop/kill/close/unlink sequence, delete the map entry, and
return the file path, rounded duration and device name. -/
def stopRecording (st : RecState) (producerId : Nat) (nowMs : Nat) :
    Option StopResult × RecState :=
  match alGet st.recordings producerId with
  | none => (none, st)
  | some r =>
      let st1 := { st with
        effects := st.effects ++
          [RecEffect.closedRecConsumer r.consumerId,
           RecEffect.scheduledStopSequence producerId],
        recordings := alDel st.recordings producerId }
      (some (StopResult.mk r.filepath ((nowMs - r.startTime + 500) / 1000) r.deviceName), st1)

/-- The loop the websocket module runs over a list of producers when a
client stops streaming or disconnects. -/
def stopRecordingsFor (ps : List ProducerInfo) (st : RecState) (nowMs : Nat) : RecState :=
  match ps with
  | [] => st
  | p :: rest => stopRecordingsFor rest (stopRecording st p.id nowMs).2 nowMs

structure ActiveRecordingInfo where
  producerId : Nat
  deviceName : Option String
  filepath : String
  startTime : Nat
  duration : Nat
  deriving DecidableEq

def getActiveRecordings (st : RecState) (nowMs : Nat) : List ActiveRecordingInfo :=
  st.recordings.map (fun e =>
    ActiveRecordingInfo.mk e.1 e.2.deviceName e.2.filepath e.2.startTime
      (nowMs - e.2.startTime))

def isRecordingEnabled (st : RecState) : Bool := st.ffmpegAvailable

def isSpawn (e : RecEffect) : Bool :=
  match e with
  | RecEffect.spawnedFfmpeg _ _ => true
  | _ => false

/-- Number of encoder processes the recorder has spawned so far. -/
def spawnCount (st : RecState) : Nat := st.effects.countP isSpawn

/-! Signalling layer (websocket module): clients map, streamers map,
masters set, outbound messages, and the message handlers the claims
are about. -/

/-- Per-connection client record; wsOpen models readyState = OPEN. -/
structure Client where
  wsOpen : Bool
  role : Option String
  deviceName : Option String
  clientIp : String
  deriving DecidableEq

/-- The record stored in the streamers map at registration. -/
structure StreamerRec where
  deviceName : String
  producers : List Nat
  transports : List Nat
  deriving DecidableEq

/-- One entry of the streamer list sent to a registering master. -/
structure StreamerInfo where
  clientId : Nat
  deviceName : String
  producers : List ProducerInfo
  deriving DecidableEq

/-- Outbound messages of the handlers modelled here. -/
inductive ServerMsg where
  | registered (role : String) (deviceName : String)
  | streamerJoined (clientId : Nat) (deviceName : String)
  | streamerList (streamers : List StreamerInfo)
  | streamerLeft (clientId : Nat) (deviceName : Option String)
  | streamingStopped (success : Bool)
  | panZoomCommand (zoom panX panY : Int)
  | consumed (res : ConsumeResult)
  | errorMsg (message : String)
  deriving DecidableEq

/-- Full server state: signalling registries, media facade state,
recorder state, and the log of messages written to client channels
(receiver id paired with the message). -/
structure SState where
  clients : List (Nat × Client)
  streamers : List (Nat × StreamerRec)
  masters : List Nat
  ms : MState
  recorder : RecState
  out : List (Nat × ServerMsg)
  deriving DecidableEq

def streamerRole : String := "streamer"

def masterRole : String := "master"

/-- send: write to a channel only when it is open. -/
def sendTo (cl : Client) (cid : Nat) (msg : ServerMsg)
    (out : List (Nat × ServerMsg)) : List (Nat × ServerMsg) :=
  if cl.wsOpen then out ++ [(cid, msg)] else out

/-- broadcastToMasters: one frame per master whose client record exists
and whose channel is open, in masters-set insertion order. -/
def broadcastToMasters (clients : List (Nat × Client)) (masters : List Nat)
    (msg : ServerMsg) : List (Nat × ServerMsg) :=
  match masters with
  | [] => []
  | mid :: rest =>
      match alGet clients mid with
      | some m =>
          if m.wsOpen then (mid, msg) :: broadcastToMasters clients rest msg
          else broadcastToMasters clients rest msg
      | none => broadcastToMasters clients rest msg

/-- Set.add on the masters set: append only when absent. -/
def addToSet (l : List Nat) (x : Nat) : List Nat :=
  if x ∈ l then l else l ++ [x]

/-- Default device name derived from the client id. -/
def defaultName (cid : Nat) : String := "Device-" ++ toString cid

/-- The streamer snapshot sent to a master: one entry per streamers-map
entry, in map order, with the producers of that client. -/
def streamerListOf (streamers : List (Nat × StreamerRec)) (ms : MState) :
    List StreamerInfo :=
  streamers.map (fun e => StreamerInfo.mk e.1 e.2.deviceName (getProducersByClient ms e.1))

/-- The register case of handleMessage: unconditionally overwrite role
and device name; for a streamer, store a fresh StreamerRecord and
broadcast streamer-joined; for a master, join the masters set and send
the streamer snapshot; finally reply registered. -/
def handleRegister (st : SState) (clientId : Nat) (role : String)
    (deviceName : Option String) : SState :=
  match alGet st.clients clientId with
  | none => st
  | some cl =>
      let dn := deviceName.getD (defaultName clientId)
      let cl1 := { cl with role := some role, deviceName := some dn }
      let clients1 := alSet st.clients clientId cl1
      if role = streamerRole then
        let streamers1 := alSet st.streamers clientId (StreamerRec.mk dn [] [])
        let out1 := st.out ++
          broadcastToMasters clients1 st.masters (ServerMsg.streamerJoined clientId dn)
        { st with clients := clients1, streamers := streamers1,
                  out := sendTo cl1 clientId (ServerMsg.registered role dn) out1 }
      else if role = masterRole then
        let masters1 := addToSet st.masters clientId
        let out1 := sendTo cl1 clientId
          (ServerMsg.streamerList (streamerListOf st.streamers st.ms)) st.out
        { st with clients := clients1, masters := masters1,
                  out := sendTo cl1 clientId (ServerMsg.registered role dn) out1 }
      else
        { st with clients := clients1,
                  out := sendTo cl1 clientId (ServerMsg.registered role dn) st.out }

/-- The pan-zoom case of handleMessage: forward the command to the
target only when it exists and its channel is open; otherwise do
nothing at all. -/
def handlePanZoom (st : SState) (targetClientId : Nat)
    (zoom panX panY : Int) : SState :=
  match alGet st.clients targetClientId with
  | some tc =>
      if tc.wsOpen then
        { st with out := st.out ++ [(targetClientId, ServerMsg.panZoomCommand zoom panX panY)] }
      else st
  | none => st

/-- The stop-streaming case of handleMessage: stop the recordings of
the producers of this client, clean up its media resources, remove the
streamer record and broadcast streamer-left when present, reset the
role so the identity can register again, and reply streaming-stopped. -/
def handleStopStreaming (st : SState) (clientId : Nat) (nowMs : Nat) : SState :=
  match alGet st.clients clientId with
  | none => st
  | some cl =>
      let ps := getProducersByClient st.ms clientId
      let rec1 := stopRecordingsFor ps st.recorder nowMs
      let ms1 := cleanupClient st.ms clientId
      let hasStreamer := (alGet st.streamers clientId).isSome
      let streamers1 := if hasStreamer then alDel st.streamers clientId else st.streamers
      let out1 :=
        if hasStreamer then
          st.out ++ broadcastToMasters st.clients st.masters
            (ServerMsg.streamerLeft clientId cl.deviceName)
        else st.out
      let clients1 := alSet st.clients clientId { cl with role := none }
      { st with clients := clients1, streamers := streamers1, ms := ms1, recorder := rec1,
                out := sendTo cl clientId (ServerMsg.streamingStopped true) out1 }

/-- The consume case of handleMessage, together with the catch handler
of the channel: an engine error becomes a single error frame to the
requesting client, a success becomes a consumed frame. -/
def handleConsume (st : SState) (clientId transportId producerId rtpCapabilities : Nat)
    (canConsume : Nat → Nat → Bool) : SState :=
  match alGet st.clients clientId with
  | none => st
  | some cl =>
      match createConsumer st.ms canConsume transportId producerId rtpCapabilities clientId with
      | Except.error e =>
          { st with out := sendTo cl clientId (ServerMsg.errorMsg e) st.out }
      | Except.ok r =>
          { st with ms := r.2,
                    out := sendTo cl clientId (ServerMsg.consumed r.1) st.out }


/-! Concrete sample data used to exercise the model on closed inputs. -/

def videoKind : String := "video"

def sampleIp : String := "10.0.0.5"

def camA : String := "CamA"

def camB : String := "CamB"

def vp8Name : String := "VP8"

def isoT : String := "2026-01-01T00-00-00-000Z"

def fpathA : String := "./server/recordings/old.mkv"

def spathA : String := "./server/recordings/30.sdp"

def sampleCodec : CodecInfo := CodecInfo.mk vp8Name 96 90000 1111

def openClient : Client := Client.mk true none none sampleIp

def streamingClient : Client := Client.mk true (some streamerRole) (some camA) sampleIp

def masterClient : Client := Client.mk true (some masterRole) (some camB) sampleIp

def emptyM : MState := MState.mk [] [] [] 0 []

def recIdle : RecState := RecState.mk [] 20000 true 0 []

def recDisabled : RecState := RecState.mk [] 20000 false 0 []

def sampleProducer : ProducerData := ProducerData.mk 1 (some camA) videoKind sampleCodec

def sampleTransport : TransportData := TransportData.mk 1

def sampleRecording : Recording := Recording.mk 0 1 2 fpathA spathA (some camA) 20000 100

def recBusy : RecState := RecState.mk [(30, sampleRecording)] 20002 true 10 []

def msC2 : MState := MState.mk [] [(30, sampleProducer)] [] 0 []

def ccFalse : Nat → Nat → Bool := fun _ _ => false

def stC1 : SState :=
  SState.mk [(1, streamingClient)] [(1, StreamerRec.mk camA [5] [6])] [] emptyM recIdle []

def stC4a : SState :=
  SState.mk [(1, openClient)] [] [] (MState.mk [(10, sampleTransport)] [] [] 0 []) recIdle []

def stC4b : SState :=
  SState.mk [(1, openClient)] [] []
    (MState.mk [(10, sampleTransport)] [(20, sampleProducer)] [] 0 []) recIdle []

def stC5 : SState :=
  SState.mk [(1, streamingClient), (2, masterClient)]
    [(1, StreamerRec.mk camA [30] [])] [2]
    (MState.mk [(40, sampleTransport)] [(30, sampleProducer)] [] 50 [])
    (RecState.mk [(30, sampleRecording)] 20002 true 3 []) []

def stC6 : SState :=
  SState.mk [(1, streamingClient), (2, masterClient), (3, openClient)]
    [(1, StreamerRec.mk camA [30] []), (2, StreamerRec.mk camB [] [])] []
    (MState.mk [] [(30, sampleProducer)] [] 0 []) recIdle []

def stC8a : SState := SState.mk [] [] [] emptyM recIdle []

def closedClient : Client := Client.mk false none none sampleIp

def stC8c : SState := SState.mk [(2, closedClient)] [] [] emptyM recIdle []

def msC7 : MState :=
  MState.mk [(40, TransportData.mk 1), (41, TransportData.mk 2)]
    [(30, sampleProducer)] [(60, ConsumerData.mk 1 30 videoKind)] 70 []

def stC8b : SState := SState.mk [(2, openClient)] [] [] emptyM recIdle []

/-- Count of frames in the output log addressed to the given client and
equal to the given message. -/
def countMsg (out : List (Nat × ServerMsg)) (cid : Nat) (msg : ServerMsg) : Nat :=
  out.countP (fun e => decide (e.1 = cid ∧ e.2 = msg))

def isErrorTo (cid : Nat) (e : Nat × ServerMsg) : Bool :=
  match e with
  | (rid, ServerMsg.errorMsg _) => rid == cid
  | _ => false

/-- Count of error frames addressed to the given client. -/
def errCount (out : List (Nat × ServerMsg)) (cid : Nat) : Nat :=
  out.countP (isErrorTo cid)

/-- Reachability invariant of the module-level RTP port counter. -/
def portInv (p : Nat) : Prop :=
  p % 2 = 0 ∧ 20000 ≤ p ∧ p ≤ 30000

/-! Supporting lemmas. -/

@[simp] theorem alGet_nil {α : Type} (key : Nat) : alGet ([] : List (Nat × α)) key = none := rfl

theorem alGet_alSet_self {α : Type} (l : List (Nat × α)) (k : Nat) (v : α) :
    alGet (alSet l k v) k = some v := by
  induction l with
  | nil => simp [alGet, alSet]
  | cons e rest ih =>
      obtain ⟨k0, w⟩ := e
      by_cases h : k0 = k
      · simp [alGet, alSet, h]
      · simp [alGet, alSet, h, ih]

theorem alGet_alSet_ne {α : Type} (l : List (Nat × α)) (k k' : Nat) (v : α) (h : k ≠ k') :
    alGet (alSet l k v) k' = alGet l k' := by
  induction l with
  | nil => simp [alGet, alSet, h]
  | cons e rest ih =>
      obtain ⟨k0, w⟩ := e
      by_cases h0 : k0 = k
      · subst h0
        simp [alGet, alSet, h]
      · simp [alGet, alSet, h0, ih]

theorem alGet_alDel_self {α : Type} (l : List (Nat × α)) (k : Nat) :
    alGet (alDel l k) k = none := by
  induction l with
  | nil => simp [alDel, alGet]
  | cons e rest ih =>
      obtain ⟨k0, w⟩ := e
      by_cases h : k0 = k
      · simpa [alDel, h] using ih
      · simpa [alDel, h, alGet] using ih

theorem alGet_alDel_ne {α : Type} (l : List (Nat × α)) (k k' : Nat) (h : k ≠ k') :
    alGet (alDel l k) k' = alGet l k' := by
  induction l with
  | nil => simp [alDel, alGet]
  | cons e rest ih =>
      obtain ⟨k0, w⟩ := e
      by_cases h0 : k0 = k
      · simp [alDel, alGet, h0, h, ih]
      · by_cases h1 : k0 = k'
        · simp [alDel, h0, alGet, h1, Ne.symm h]
        · simp [alDel, h0, alGet, h1, ih]

theorem alGet_alDel_none {α : Type} (l : List (Nat × α)) (k k' : Nat)
    (h : alGet l k' = none) : alGet (alDel l k) k' = none := by
  by_cases hk : k = k'
  · subst hk
    exact alGet_alDel_self l k
  · rw [alGet_alDel_ne l k k' hk]
    exact h

theorem alSet_keys_of_get {α : Type} (l : List (Nat × α)) (k : Nat) (v v0 : α)
    (h : alGet l k = some v0) : (alSet l k v).map (fun e => e.1) = l.map (fun e => e.1) := by
  induction l with
  | nil => simp [alGet] at h
  | cons e rest ih =>
      obtain ⟨k0, w⟩ := e
      by_cases h0 : k0 = k
      · subst h0
        simp [alSet]
      · simp [alGet, h0] at h
        simp [alSet, h0, ih h]

theorem withoutOwner_idem {α : Type} (o : α → Nat) (c : Nat) (l : List (Nat × α)) :
    withoutOwner o c (withoutOwner o c l) = withoutOwner o c l := by
  induction l with
  | nil => simp [withoutOwner]
  | cons e rest ih =>
      by_cases h : o e.2 = c
      · simp [withoutOwner, h, ih]
      · simp [withoutOwner, h, ih]

theorem ownedBy_withoutOwner {α : Type} (o : α → Nat) (c : Nat) (l : List (Nat × α)) :
    ownedBy o c (withoutOwner o c l) = [] := by
  induction l with
  | nil => simp [ownedBy, withoutOwner]
  | cons e rest ih =>
      by_cases h : o e.2 = c
      · simp [withoutOwner, h, ih]
      · simp [withoutOwner, h, ownedBy, ih]

theorem mem_withoutOwner_ne {α : Type} (o : α → Nat) (c : Nat) (l : List (Nat × α))
    (e : Nat × α) (he : e ∈ withoutOwner o c l) : o e.2 ≠ c := by
  induction l with
  | nil => simp [withoutOwner] at he
  | cons x rest ih =>
      by_cases h : o x.2 = c
      · simp [withoutOwner, h] at he
        exact ih he
      · simp [withoutOwner, h] at he
        rcases he with he | he
        · rw [he]
          exact h
        · exact ih he

theorem countMsg_append (a b : List (Nat × ServerMsg)) (cid : Nat) (m : ServerMsg) :
    countMsg (a ++ b) cid m = countMsg a cid m + countMsg b cid m := by
  simp [countMsg, List.countP_append]

theorem errCount_append (a b : List (Nat × ServerMsg)) (cid : Nat) :
    errCount (a ++ b) cid = errCount a cid + errCount b cid := by
  simp [errCount, List.countP_append]

theorem broadcast_snd (clients : List (Nat × Client)) (masters : List Nat)
    (msg : ServerMsg) (e : Nat × ServerMsg)
    (he : e ∈ broadcastToMasters clients masters msg) : e.2 = msg := by
  induction masters with
  | nil => simp [broadcastToMasters] at he
  | cons mid rest ih =>
      cases hm : alGet clients mid with
      | none =>
          simp [broadcastToMasters, hm] at he
          exact ih he
      | some m =>
          by_cases ho : m.wsOpen
          · simp [broadcastToMasters, hm, ho] at he
            rcases he with he | he
            · rw [he]
            · exact ih he
          · simp [broadcastToMasters, hm, ho] at he
            exact ih he

theorem countMsg_broadcast_not_mem (clients : List (Nat × Client)) (masters : List Nat)
    (msg m' : ServerMsg) (mid : Nat) (hnm : mid ∉ masters) :
    countMsg (broadcastToMasters clients masters msg) mid m' = 0 := by
  induction masters with
  | nil => simp [broadcastToMasters, countMsg]
  | cons x rest ih =>
      have hx : x ≠ mid := fun h => hnm (h ▸ List.mem_cons_self x rest)
      have hrest : mid ∉ rest := fun h => hnm (List.mem_cons_of_mem x h)
      cases hm : alGet clients x with
      | none =>
          simp only [broadcastToMasters, hm]
          exact ih hrest
      | some m =>
          by_cases ho : m.wsOpen
          · simp only [broadcastToMasters, hm, ho, if_true]
            simp [countMsg, List.countP_cons, hx]
            simpa [countMsg] using ih hrest
          · simp only [broadcastToMasters, hm, ho, if_false]
            exact ih hrest

theorem countMsg_broadcast_self (clients : List (Nat × Client)) (masters : List Nat)
    (msg : ServerMsg) (mid : Nat) (m : Client) (hnd : masters.Nodup) (hmem : mid ∈ masters)
    (hc : alGet clients mid = some m) (ho : m.wsOpen = true) :
    countMsg (broadcastToMasters clients masters msg) mid msg = 1 := by
  induction masters with
  | nil => cases hmem
  | cons x rest ih =>
      have hpair := List.nodup_cons.mp hnd
      rcases List.mem_cons.mp hmem with h | h
      · subst h
        have hrest : mid ∉ rest := hpair.1
        simp only [broadcastToMasters, hc, ho, if_true]
        simp [countMsg, List.countP_cons]
        simpa [countMsg] using countMsg_broadcast_not_mem clients rest msg msg mid hrest
      · have hx : x ≠ mid := fun he => hpair.1 (he ▸ h)
        cases hm : alGet clients x with
        | none =>
            simp only [broadcastToMasters, hm]
            exact ih hpair.2 h
        | some mm =>
            by_cases ho2 : mm.wsOpen
            · simp only [broadcastToMasters, hm, ho2, if_true]
              simp [countMsg, List.countP_cons, hx]
              simpa [countMsg] using ih hpair.2 h
            · simp only [broadcastToMasters, hm, ho2, if_false]
              exact ih hpair.2 h

theorem countMsg_broadcast_ne (clients : List (Nat × Client)) (masters : List Nat)
    (msg m : ServerMsg) (cid : Nat) (h : msg ≠ m) :
    countMsg (broadcastToMasters clients masters msg) cid m = 0 := by
  rw [countMsg, List.countP_eq_zero]
  intro e he
  have h2 := broadcast_snd clients masters msg e he
  simp [h2]
  intro _
  exact h

theorem errCount_broadcast (clients : List (Nat × Client)) (masters : List Nat)
    (cid : Nat) (msg : ServerMsg) (hmsg : ∀ s, msg ≠ ServerMsg.errorMsg s) :
    errCount (broadcastToMasters clients masters msg) cid = 0 := by
  rw [errCount, List.countP_eq_zero]
  intro e he
  have h2 := broadcast_snd clients masters msg e he
  obtain ⟨rid, m⟩ := e
  simp at h2
  cases m with
  | errorMsg s => exact absurd h2.symm (hmsg s)
  | registered r d => simp [isErrorTo]
  | streamerJoined a b => simp [isErrorTo]
  | streamerList l => simp [isErrorTo]
  | streamerLeft a b => simp [isErrorTo]
  | streamingStopped b => simp [isErrorTo]
  | panZoomCommand a b c => simp [isErrorTo]
  | consumed r => simp [isErrorTo]

theorem stopRecording_absent (st : RecState) (q now : Nat)
    (h : alGet st.recordings q = none) : stopRecording st q now = (none, st) := by
  simp [stopRecording, h]

theorem stopRecording_preserves_none (st : RecState) (q x now : Nat)
    (h : alGet st.recordings x = none) :
    alGet ((stopRecording st q now).2).recordings x = none := by
  cases hq : alGet st.recordings q with
  | none => simpa [stopRecording, hq] using h
  | some r =>
      simp [stopRecording, hq]
      exact alGet_alDel_none _ _ _ h

theorem stopRecording_self_none (st : RecState) (q now : Nat) :
    alGet ((stopRecording st q now).2).recordings q = none := by
  cases hq : alGet st.recordings q with
  | none => simp [stopRecording, hq]
  | some r =>
      simp [stopRecording, hq]
      exact alGet_alDel_self _ _

theorem stopRecordingsFor_preserves_none (ps : List ProducerInfo) (st : RecState)
    (x now : Nat) (h : alGet st.recordings x = none) :
    alGet (stopRecordingsFor ps st now).recordings x = none := by
  induction ps generalizing st with
  | nil => simpa [stopRecordingsFor] using h
  | cons p rest ih =>
      simp only [stopRecordingsFor]
      exact ih _ (stopRecording_preserves_none st p.id x now h)

theorem stopRecordingsFor_stops (ps : List ProducerInfo) (st : RecState) (now : Nat)
    (p : ProducerInfo) (hp : p ∈ ps) :
    alGet (stopRecordingsFor ps st now).recordings p.id = none := by
  induction ps generalizing st with
  | nil => cases hp
  | cons q rest ih =>
      rcases List.mem_cons.mp hp with h | h
      · subst h
        simp only [stopRecordingsFor]
        exact stopRecordingsFor_preserves_none rest _ p.id now
          (stopRecording_self_none st p.id now)
      · simp only [stopRecordingsFor]
        exact ih _ h

theorem countMsg_single (rid cid : Nat) (m2 m : ServerMsg) :
    countMsg [(rid, m2)] cid m = if rid = cid ∧ m2 = m then 1 else 0 := by
  by_cases h : rid = cid ∧ m2 = m <;> simp [countMsg, h]

theorem errCount_single_nonerror (rid cid : Nat) (m : ServerMsg)
    (hm : ∀ s, m ≠ ServerMsg.errorMsg s) : errCount [(rid, m)] cid = 0 := by
  cases m with
  | errorMsg s => exact absurd rfl (hm s)
  | registered a b => simp [errCount, isErrorTo]
  | streamerJoined a b => simp [errCount, isErrorTo]
  | streamerList l => simp [errCount, isErrorTo]
  | streamerLeft a b => simp [errCount, isErrorTo]
  | streamingStopped b => simp [errCount, isErrorTo]
  | panZoomCommand a b c => simp [errCount, isErrorTo]
  | consumed r => simp [errCount, isErrorTo]

theorem errCount_sendTo (cl : Client) (rid cid : Nat) (m : ServerMsg)
    (out : List (Nat × ServerMsg)) (hm : ∀ s, m ≠ ServerMsg.errorMsg s) :
    errCount (sendTo cl rid m out) cid = errCount out cid := by
  by_cases ho : cl.wsOpen
  · rw [sendTo, if_pos ho, errCount_append, errCount_single_nonerror rid cid m hm]
    omega
  · rw [sendTo, if_neg ho]

/-! Claim theorems. -/

/-- C4: a consume request for a producer id absent from the producers
registry fails with the resource-not-found error frame sent to the
requesting identity only (nothing else is appended to the wire), and
every piece of global state, in particular the consumers registry and
the rest of the server state, is left untouched; moreover the
canConsume capability check runs before any consumer is created, so
when transport and producer exist but the check fails, the request
errors with no consumer added. -/
theorem c4_consume_missing_producer (st : SState) (cl : Client)
    (cid tid pid caps : Nat) (cc : Nat → Nat → Bool)
    (hc : alGet st.clients cid = some cl) :
    (∀ td, alGet st.ms.transports tid = some td →
      alGet st.ms.producers pid = none →
      handleConsume st cid tid pid caps cc =
        { st with out := st.out ++
            (if cl.wsOpen then [(cid, ServerMsg.errorMsg (producerNotFoundMsg pid))] else []) }) ∧
    (∀ td pd, alGet st.ms.transports tid = some td →
      alGet st.ms.producers pid = some pd → cc pid caps = false →
      handleConsume st cid tid pid caps cc =
        { st with out := st.out ++
            (if cl.wsOpen then [(cid, ServerMsg.errorMsg (cannotConsumeMsg pid))] else []) }) := by
  refine ⟨?_, ?_⟩
  · intro td h1 h2
    by_cases ho : cl.wsOpen <;>
      simp [handleConsume, hc, createConsumer, h1, h2, sendTo, ho]
  · intro td pd h1 h2 h3
    by_cases ho : cl.wsOpen <;>
      simp [handleConsume, hc, createConsumer, h1, h2, h3, sendTo, ho]

/-- C4 witness: concrete failing consume requests. -/
theorem c4_consume_missing_producer_witness :
    handleConsume stC4a 1 10 20 0 ccFalse =
      { stC4a with out := stC4a.out ++ [(1, ServerMsg.errorMsg (producerNotFoundMsg 20))] } ∧
    handleConsume stC4b 1 10 20 0 ccFalse =
      { stC4b with out := stC4b.out ++ [(1, ServerMsg.errorMsg (cannotConsumeMsg 20))] } := by
  have ha := c4_consume_missing_producer stC4a openClient 1 10 20 0 ccFalse rfl
  have hb := c4_consume_missing_producer stC4b openClient 1 10 20 0 ccFalse rfl
  refine ⟨?_, ?_⟩
  · have h := ha.1 sampleTransport rfl rfl
    simpa using h
  · have h := hb.2 sampleTransport sampleProducer rfl rfl rfl
    simpa using h

/-- C6: registering a viewer sends it the full streamer snapshot and
then the registration reply: one streamer-list frame whose entries are
exactly the streamers-map entries, in insertion (registration) order,
each carrying the producers of that streamer. -/
theorem c6_viewer_snapshot (st : SState) (cl : Client) (cid : Nat) (dn : Option String)
    (hc : alGet st.clients cid = some cl) (ho : cl.wsOpen = true) :
    (handleRegister st cid masterRole dn).out =
      st.out ++ [(cid, ServerMsg.streamerList (streamerListOf st.streamers st.ms)),
                 (cid, ServerMsg.registered masterRole (dn.getD (defaultName cid)))] ∧
    (streamerListOf st.streamers st.ms).length = st.streamers.length ∧
    (streamerListOf st.streamers st.ms).map StreamerInfo.clientId =
      st.streamers.map (fun e => e.1) ∧
    streamerListOf st.streamers st.ms =
      st.streamers.map
        (fun e => StreamerInfo.mk e.1 e.2.deviceName (getProducersByClient st.ms e.1)) := by
  have hne : masterRole ≠ streamerRole := by decide
  refine ⟨?_, ?_, ?_, rfl⟩
  · simp [handleRegister, hc, hne, sendTo, ho]
  · simp [streamerListOf]
  · simp [streamerListOf]

/-- C6 witness: a viewer registering while two streamers are present
receives the two-entry snapshot. -/
theorem c6_viewer_snapshot_witness :
    (handleRegister stC6 3 masterRole (some camB)).out =
      stC6.out ++ [(3, ServerMsg.streamerList (streamerListOf stC6.streamers stC6.ms)),
                   (3, ServerMsg.registered masterRole camB)] ∧
    (streamerListOf stC6.streamers stC6.ms).length = 2 := by
  have h := c6_viewer_snapshot stC6 openClient 3 (some camB) rfl rfl
  exact ⟨h.1, h.2.1⟩

/-- C1 counterexample: a second register from the already-registered
streamer identity 1 is not rejected as a protocol error: no error
frame is produced for it, and the existing registration state is
mutated, the device name being overwritten and the StreamerRecord
losing its producer and transport lists. -/
theorem c1_duplicate_register_counterexample :
    errCount (handleRegister stC1 1 streamerRole (some camB)).out 1 = 0 ∧
    (alGet stC1.streamers 1).map StreamerRec.producers = some [5] ∧
    (alGet (handleRegister stC1 1 streamerRole (some camB)).streamers 1).map
      StreamerRec.producers = some [] ∧
    (alGet (handleRegister stC1 1 streamerRole (some camB)).clients 1).map
      Client.deviceName = some (some camB) := by
  refine ⟨?_, ?_, ?_, ?_⟩ <;> decide

/-- C1 amended: a duplicate register on an already-registered identity
is accepted, not rejected: the handler reports no error to the
identity, overwrites its role and device name, and for role streamer
replaces its StreamerRecord with a fresh one having empty producer and
transport lists, replying registered as for a first registration. -/
theorem c1_duplicate_register_overwrites (st : SState) (cl : Client) (cid : Nat)
    (dn : Option String) (r0 : String)
    (hc : alGet st.clients cid = some cl) (_hr : cl.role = some r0) :
    alGet (handleRegister st cid streamerRole dn).clients cid =
      some { cl with role := some streamerRole,
                     deviceName := some (dn.getD (defaultName cid)) } ∧
    alGet (handleRegister st cid streamerRole dn).streamers cid =
      some (StreamerRec.mk (dn.getD (defaultName cid)) [] []) ∧
    errCount (handleRegister st cid streamerRole dn).out cid = errCount st.out cid := by
  refine ⟨?_, ?_, ?_⟩
  · simp [handleRegister, hc, alGet_alSet_self]
  · simp [handleRegister, hc, alGet_alSet_self]
  · have hout : (handleRegister st cid streamerRole dn).out =
        sendTo { cl with role := some streamerRole,
                         deviceName := some (dn.getD (defaultName cid)) } cid
          (ServerMsg.registered streamerRole (dn.getD (defaultName cid)))
          (st.out ++ broadcastToMasters
            (alSet st.clients cid
              { cl with role := some streamerRole,
                        deviceName := some (dn.getD (defaultName cid)) })
            st.masters
            (ServerMsg.streamerJoined cid (dn.getD (defaultName cid)))) := by
      simp [handleRegister, hc]
    rw [hout, errCount_sendTo _ _ _ _ _ (fun s h => ServerMsg.noConfusion h),
      errCount_append,
      errCount_broadcast _ _ _ _ (fun s h => ServerMsg.noConfusion h)]
    omega

/-- C1 amended witness: the concrete duplicate registration. -/
theorem c1_duplicate_register_overwrites_witness :
    alGet (handleRegister stC1 1 streamerRole (some camB)).streamers 1 =
      some (StreamerRec.mk camB [] []) ∧
    errCount (handleRegister stC1 1 streamerRole (some camB)).out 1 =
      errCount stC1.out 1 := by
  have h := c1_duplicate_register_overwrites stC1 streamingClient 1 (some camB)
    streamerRole rfl rfl
  exact ⟨h.2.1, h.2.2⟩

/-- C2 counterexample: startRecording for producer 30, which already
has a session in the recordings map, is not a no-op returning the
existing session: it spawns a second encoder process, mutates the
state, and overwrites the stored session. -/
theorem c2_duplicate_start_counterexample :
    alGet recBusy.recordings 30 = some sampleRecording ∧
    spawnCount (startRecording msC2 recBusy 30 (some camA) 200 isoT).2 =
      spawnCount recBusy + 1 ∧
    alGet (startRecording msC2 recBusy 30 (some camA) 200 isoT).2.recordings 30 ≠
      some sampleRecording ∧
    (startRecording msC2 recBusy 30 (some camA) 200 isoT).2 ≠ recBusy := by
  refine ⟨?_, ?_, ?_, ?_⟩ <;> decide

/-- C2 amended: startRecording does not consult the recordings map:
invoked for a producer that already has a session (encoder available,
producer registered), it spawns exactly one further encoder process,
returns a new session result, and overwrites the map entry with a
freshly built record, so the map still holds a single entry for this
producer id (its key list is unchanged), rather than being a no-op
returning the existing session. -/
theorem c2_duplicate_start_overwrites (ms : MState) (st : RecState)
    (pid nowMs : Nat) (dn : Option String) (nowIso : String)
    (pd : ProducerData) (r0 : Recording)
    (hf : st.ffmpegAvailable = true)
    (hp : alGet ms.producers pid = some pd)
    (hr : alGet st.recordings pid = some r0) :
    spawnCount (startRecording ms st pid dn nowMs nowIso).2 = spawnCount st + 1 ∧
    (startRecording ms st pid dn nowMs nowIso).1.isSome = true ∧
    alGet (startRecording ms st pid dn nowMs nowIso).2.recordings pid =
      some (Recording.mk st.nextHandle (st.nextHandle + 1) (st.nextHandle + 2)
        (recordingsDir ++ "/" ++
          (safeDeviceName (dn.getD unknownDevice) ++ "_" ++ isoSanitize nowIso ++ ".mkv"))
        (recordingsDir ++ "/" ++ toString pid ++ ".sdp") dn
        (getNextPort st.nextRtpPort).1 nowMs) ∧
    (startRecording ms st pid dn nowMs nowIso).2.recordings.map (fun e => e.1) =
      st.recordings.map (fun e => e.1) := by
  refine ⟨?_, ?_, ?_, ?_⟩
  · simp [startRecording, hf, hp, spawnCount, List.countP_append, List.countP_cons, isSpawn]
  · simp [startRecording, hf, hp]
  · simp [startRecording, hf, hp, alGet_alSet_self]
  · simp only [startRecording, hf, hp]
    simp only [Bool.not_true, Bool.false_eq_true, if_false]
    exact alSet_keys_of_get st.recordings pid _ r0 hr

/-- C2 amended witness: the concrete duplicate start. -/
theorem c2_duplicate_start_overwrites_witness :
    spawnCount (startRecording msC2 recBusy 30 (some camA) 200 isoT).2 =
      spawnCount recBusy + 1 ∧
    (startRecording msC2 recBusy 30 (some camA) 200 isoT).1.isSome = true ∧
    (startRecording msC2 recBusy 30 (some camA) 200 isoT).2.recordings.map
      (fun e => e.1) = recBusy.recordings.map (fun e => e.1) := by
  have h := c2_duplicate_start_overwrites msC2 recBusy 30 200 (some camA) isoT
    sampleProducer sampleRecording rfl rfl rfl
  exact ⟨h.1, h.2.1, h.2.2.2⟩

/-- C3: when the encoder binary is unavailable at startup
(ffmpegAvailable is false), startRecording is a no-op returning null
with the recorder state untouched (so it never throws and creates no
RecordingSession), the status query reports recording disabled, and
with no session in the map the active-recordings report is empty. -/
theorem c3_recorder_disabled (ms : MState) (st : RecState) (pid : Nat)
    (dn : Option String) (nowMs : Nat) (nowIso : String)
    (h : st.ffmpegAvailable = false) :
    startRecording ms st pid dn nowMs nowIso = (none, st) ∧
    isRecordingEnabled st = false ∧
    (st.recordings = [] → getActiveRecordings st nowMs = []) := by
  refine ⟨?_, ?_, ?_⟩
  · simp [startRecording, h]
  · simp [isRecordingEnabled, h]
  · intro h2
    simp [getActiveRecordings, h2]

/-- C3 witness: a concrete disabled recorder state. -/
theorem c3_recorder_disabled_witness :
    recDisabled.ffmpegAvailable = false ∧
    startRecording emptyM recDisabled 30 (some camA) 0 isoT = (none, recDisabled) ∧
    isRecordingEnabled recDisabled = false ∧
    getActiveRecordings recDisabled 0 = [] := by
  have h := c3_recorder_disabled emptyM recDisabled 30 (some camA) 0 isoT rfl
  exact ⟨rfl, h.1, h.2.1, h.2.2 rfl⟩

/-- C7: cleanupClient is idempotent, a second call changes nothing (in
particular it appends no further close effects), and after one call no
producer, consumer or transport owned by the identity remains in the
registries; as a total function it raises nothing. -/
theorem c7_cleanup_idempotent (ms : MState) (cid : Nat) :
    cleanupClient (cleanupClient ms cid) cid = cleanupClient ms cid ∧
    (∀ e ∈ (cleanupClient ms cid).producers, e.2.clientId ≠ cid) ∧
    (∀ e ∈ (cleanupClient ms cid).consumers, e.2.clientId ≠ cid) ∧
    (∀ e ∈ (cleanupClient ms cid).transports, e.2.clientId ≠ cid) := by
  refine ⟨?_, ?_, ?_, ?_⟩
  · simp [cleanupClient, withoutOwner_idem, ownedBy_withoutOwner]
  · intro e he
    exact mem_withoutOwner_ne _ _ _ e he
  · intro e he
    exact mem_withoutOwner_ne _ _ _ e he
  · intro e he
    exact mem_withoutOwner_ne _ _ _ e he

/-- C7 witness: a concrete registry holding resources of two clients;
after cleaning up client 1 only the resources of client 2 remain. -/
theorem c7_cleanup_idempotent_witness :
    cleanupClient (cleanupClient msC7 1) 1 = cleanupClient msC7 1 ∧
    (41, TransportData.mk 2).2.clientId ≠ 1 :=
  ⟨(c7_cleanup_idempotent msC7 1).1,
   (c7_cleanup_idempotent msC7 1).2.2.2 (41, TransportData.mk 2) (by decide)⟩

/-- C8: a pan-zoom whose target is unknown or has a closed channel is a
complete no-op (no error to the sender, no outbound frame, no state
change); an existing open target receives the fields as one
pan-zoom-command frame, and nothing else changes. -/
theorem c8_panzoom_policy (st : SState) (target : Nat) (z x y : Int) :
    (alGet st.clients target = none → handlePanZoom st target z x y = st) ∧
    (∀ tc, alGet st.clients target = some tc → tc.wsOpen = false →
      handlePanZoom st target z x y = st) ∧
    (∀ tc, alGet st.clients target = some tc → tc.wsOpen = true →
      handlePanZoom st target z x y =
        { st with out := st.out ++ [(target, ServerMsg.panZoomCommand z x y)] }) := by
  refine ⟨?_, ?_, ?_⟩
  · intro h
    simp [handlePanZoom, h]
  · intro tc h ho
    simp [handlePanZoom, h, ho]
  · intro tc h ho
    simp [handlePanZoom, h, ho]

/-- C8 witness: concrete unknown-target no-op, closed-target no-op and
known-open-target forward. -/
theorem c8_panzoom_policy_witness :
    handlePanZoom stC8a 2 1 2 3 = stC8a ∧
    handlePanZoom stC8c 2 1 2 3 = stC8c ∧
    handlePanZoom stC8b 2 1 2 3 =
      { stC8b with out := stC8b.out ++ [(2, ServerMsg.panZoomCommand 1 2 3)] } :=
  ⟨(c8_panzoom_policy stC8a 2 1 2 3).1 rfl,
   (c8_panzoom_policy stC8c 2 1 2 3).2.1 closedClient rfl rfl,
   (c8_panzoom_policy stC8b 2 1 2 3).2.2 openClient rfl rfl⟩

/-- C9: on any counter value reachable from the initial 20000 (even and
in 20000..30000, the invariant portInv), getNextPort returns an even
port in 20000..30000 whose RTCP companion never exceeds 30001, portInv
is preserved, and the next call returns a value two larger except at
the wrap, where 30000 is followed by 20000. -/
theorem c9_port_allocator (p : Nat) (h : portInv p) :
    (getNextPort p).1 % 2 = 0 ∧
    20000 ≤ (getNextPort p).1 ∧ (getNextPort p).1 ≤ 30000 ∧
    (getNextPort p).1 + 1 ≤ 30001 ∧
    portInv (getNextPort p).2 ∧
    ((getNextPort (getNextPort p).2).1 = (getNextPort p).1 + 2 ∨
      ((getNextPort p).1 = 30000 ∧ (getNextPort (getNextPort p).2).1 = 20000)) := by
  obtain ⟨h1, h2, h3⟩ := h
  simp only [getNextPort, portInv]
  split_ifs with hp <;> simp_all <;> omega

/-- C9 witness: the initial counter satisfies the invariant. -/
theorem c9_port_allocator_witness :
    portInv initialRtpPort ∧
    ((getNextPort initialRtpPort).1 % 2 = 0 ∧
      (getNextPort initialRtpPort).1 + 1 ≤ 30001 ∧
      portInv (getNextPort initialRtpPort).2) := by
  have hinv : portInv initialRtpPort := by
    refine ⟨?_, ?_, ?_⟩ <;> simp [initialRtpPort]
  have h := c9_port_allocator initialRtpPort hinv
  exact ⟨hinv, h.1, h.2.2.2.1, h.2.2.2.2.1⟩

/-- C10: stopRecording for a producer id absent from the recordings map
returns null and leaves the recorder state entirely unchanged: the map,
every other session, the effect log (so no process, transport or file
is touched) and the counters. -/
theorem c10_stop_absent_frame (st : RecState) (pid nowMs : Nat)
    (h : alGet st.recordings pid = none) :
    stopRecording st pid nowMs = (none, st) :=
  stopRecording_absent st pid nowMs h

/-- C10 witness: a concrete recorder state without the producer. -/
theorem c10_stop_absent_frame_witness :
    alGet recBusy.recordings 31 = none ∧
    stopRecording recBusy 31 7 = (none, recBusy) :=
  ⟨rfl, c10_stop_absent_frame recBusy 31 7 rfl⟩

/-- C5: when a registered streamer with an open channel sends
stop-streaming, every registered master with an open channel receives
exactly one further streamer-left frame, the StreamerRecord is
removed, the recordings of all its producers are stopped (their map
entries gone), no media resource owned by the identity remains in the
registries, its role is reset, the sender receives one
streaming-stopped frame, and a subsequent streamer registration from
the same identity succeeds, creating a fresh StreamerRecord. -/
theorem c5_stop_streaming (st st' : SState) (cl m : Client)
    (cid mid nowMs : Nat) (dn2 : String)
    (hc : alGet st.clients cid = some cl)
    (ho : cl.wsOpen = true)
    (hs : (alGet st.streamers cid).isSome = true)
    (hnd : st.masters.Nodup)
    (hmm : mid ∈ st.masters)
    (hmc : alGet st.clients mid = some m)
    (hmo : m.wsOpen = true)
    (hst : st' = handleStopStreaming st cid nowMs) :
    countMsg st'.out mid (ServerMsg.streamerLeft cid cl.deviceName) =
      countMsg st.out mid (ServerMsg.streamerLeft cid cl.deviceName) + 1 ∧
    alGet st'.streamers cid = none ∧
    (∀ p ∈ getProducersByClient st.ms cid,
      alGet st'.recorder.recordings p.id = none) ∧
    (∀ e ∈ st'.ms.producers, e.2.clientId ≠ cid) ∧
    (∀ e ∈ st'.ms.consumers, e.2.clientId ≠ cid) ∧
    (∀ e ∈ st'.ms.transports, e.2.clientId ≠ cid) ∧
    (alGet st'.clients cid).map Client.role = some none ∧
    countMsg st'.out cid (ServerMsg.streamingStopped true) =
      countMsg st.out cid (ServerMsg.streamingStopped true) + 1 ∧
    alGet (handleRegister st' cid streamerRole (some dn2)).streamers cid =
      some (StreamerRec.mk dn2 [] []) := by
  have hA : handleStopStreaming st cid nowMs = { st with
      clients := alSet st.clients cid { cl with role := none },
      streamers := alDel st.streamers cid,
      ms := cleanupClient st.ms cid,
      recorder := stopRecordingsFor (getProducersByClient st.ms cid) st.recorder nowMs,
      out := (st.out ++ broadcastToMasters st.clients st.masters
          (ServerMsg.streamerLeft cid cl.deviceName)) ++
        [(cid, ServerMsg.streamingStopped true)] } := by
    simp [handleStopStreaming, hc, hs, sendTo, ho]
  subst hst
  rw [hA]
  refine ⟨?_, ?_, ?_, ?_, ?_, ?_, ?_, ?_, ?_⟩
  · simp only [countMsg_append]
    rw [countMsg_broadcast_self st.clients st.masters _ mid m hnd hmm hmc hmo,
      countMsg_single]
    simp
  · exact alGet_alDel_self _ _
  · intro p hp
    exact stopRecordingsFor_stops _ _ _ p hp
  · intro e he
    simp only [cleanupClient] at he
    exact mem_withoutOwner_ne _ _ _ e he
  · intro e he
    simp only [cleanupClient] at he
    exact mem_withoutOwner_ne _ _ _ e he
  · intro e he
    simp only [cleanupClient] at he
    exact mem_withoutOwner_ne _ _ _ e he
  · rw [alGet_alSet_self]
    simp
  · simp only [countMsg_append]
    rw [countMsg_broadcast_ne st.clients st.masters _ _ cid
        (fun h => ServerMsg.noConfusion h),
      countMsg_single]
    simp
  · have hcl : alGet (alSet st.clients cid { cl with role := none }) cid =
        some { cl with role := none } := alGet_alSet_self _ _ _
    simp [handleRegister, hcl, alGet_alSet_self]

/-- C5 witness: the concrete stop-streaming scenario with one streamer,
one master, one producer and one active recording. -/
theorem c5_stop_streaming_witness :
    countMsg (handleStopStreaming stC5 1 500).out 2
        (ServerMsg.streamerLeft 1 (some camA)) =
      countMsg stC5.out 2 (ServerMsg.streamerLeft 1 (some camA)) + 1 ∧
    alGet (handleStopStreaming stC5 1 500).streamers 1 = none ∧
    alGet (handleRegister (handleStopStreaming stC5 1 500) 1 streamerRole
        (some camB)).streamers 1 = some (StreamerRec.mk camB [] []) := by
  have h := c5_stop_streaming stC5 (handleStopStreaming stC5 1 500) streamingClient
    masterClient 1 2 500 camB rfl rfl rfl (by decide) (by decide) rfl rfl rfl
  exact ⟨h.1, h.2.1, h.2.2.2.2.2.2.2.2⟩

end LanCCTV
